import Mathlib

/-! Shallow embedding of the Medical Consultation backend (src/main.py).

The backend is a FastAPI application holding two in-memory dictionaries,
`patients_db` and `consultations_db`, and exposing endpoints for patient
registration, the specialization/symptom catalog, a consultation turn with a
provider chain falling back to canned templates, history retrieval, report
export and history clearing.  Python dictionaries are embedded as
insertion-ordered association lists, the wall clock (`datetime.now()`) is an
explicit string parameter, and the two external text-generation providers are
oracles `String → Option String` carried in a `Config` record, mirroring the
`generate_response` methods that return a string or `None`. -/

namespace MedConsult

/-- Python dict membership/lookup (`k in d`, `d[k]`, `d.get(k)`): dictionaries
are embedded as insertion-ordered association lists. -/
def dictLookup {α : Type} (d : List (String × α)) (k : String) : Option α :=
  match d with
  | [] => none
  | (k', v) :: rest => if k' = k then some v else dictLookup rest k

/-- Python dict assignment `d[k] = v`: replaces the value in place when the key
exists, otherwise appends the new pair (insertion order preserved). -/
def dictInsert {α : Type} (d : List (String × α)) (k : String) (v : α) : List (String × α) :=
  match d with
  | [] => [(k, v)]
  | (k', v') :: rest => if k' = k then (k', v) :: rest else (k', v') :: dictInsert rest k v

/-- Embedding of Python `str.strip()`: drop whitespace from both ends.
Implemented over the character list so that it evaluates inside the kernel. -/
def strTrim (s : String) : String :=
  ⟨((s.data.dropWhile Char.isWhitespace).reverse.dropWhile Char.isWhitespace).reverse⟩

/-- Embedding of Python `str.lower()`. -/
def strLower (s : String) : String := ⟨s.data.map Char.toLower⟩

/-- Concatenation of a list of strings (the `report += block` accumulation of
the export loop). -/
def strJoin (l : List String) : String := l.foldl (fun a b => a ++ b) ""

/-- Embedding of Python `", ".join(xs)`. -/
def strIntercalate (sep : String) (l : List String) : String :=
  match l with
  | [] => ""
  | [x] => x
  | x :: rest => x ++ sep ++ strIntercalate sep rest

/-- A run of `n` copies of one character (the box-drawing rails of the export
report, kept out of the source literals). -/
def repChar (c : Char) (n : Nat) : String := ⟨List.replicate n c⟩

/-- The `Specialization` enum of src/main.py (lines 30-35). -/
inductive Specialization where
  | DERMATOLOGIST
  | GYNECOLOGIST
  | CARDIOLOGIST
  | NEUROLOGIST
  | ORTHOPEDIST
deriving DecidableEq

/-- The string value of each enum member. -/
def Specialization.val : Specialization → String
  | .DERMATOLOGIST => "Dermatologist"
  | .GYNECOLOGIST => "Gynecologist"
  | .CARDIOLOGIST => "Cardiologist"
  | .NEUROLOGIST => "Neurologist"
  | .ORTHOPEDIST => "Orthopedist"

/-- Coercion of a raw path/body string into the `Specialization` enum, as the
framework performs for parameters annotated with the enum type: the enum member
whose value equals the string, or failure. -/
def Specialization.ofString (s : String) : Option Specialization :=
  if s = "Dermatologist" then some .DERMATOLOGIST
  else if s = "Gynecologist" then some .GYNECOLOGIST
  else if s = "Cardiologist" then some .CARDIOLOGIST
  else if s = "Neurologist" then some .NEUROLOGIST
  else if s = "Orthopedist" then some .ORTHOPEDIST
  else none

/-- The `SYMPTOMS` mapping of src/main.py (lines 38-62). -/
def SYMPTOMS : Specialization → List String
  | .DERMATOLOGIST =>
    ["Skin rash", "Acne", "Dry skin", "Itching", "Skin discoloration",
     "Hair loss", "Nail problems", "Moles/skin growths", "Eczema", "Psoriasis"]
  | .GYNECOLOGIST =>
    ["Irregular periods", "Heavy bleeding", "Pelvic pain", "Vaginal discharge",
     "Painful periods", "Missed periods", "Breast pain", "Urinary issues",
     "Menopause symptoms", "Fertility concerns"]
  | .CARDIOLOGIST =>
    ["Chest pain", "Shortness of breath", "Heart palpitations", "Dizziness",
     "Fatigue", "Swollen legs/ankles", "High blood pressure", "Irregular heartbeat",
     "Fainting", "Exercise intolerance"]
  | .NEUROLOGIST =>
    ["Headaches", "Memory problems", "Seizures", "Numbness/tingling",
     "Muscle weakness", "Balance problems", "Vision changes", "Speech difficulties",
     "Tremors", "Sleep disorders"]
  | .ORTHOPEDIST =>
    ["Joint pain", "Back pain", "Neck pain", "Muscle pain", "Stiffness",
     "Limited range of motion", "Swelling", "Bone pain", "Sports injury", "Arthritis"]

/-- The validated `PatientRegistration` pydantic model (src/main.py lines 65-84).
Python `int` is unbounded, so `age` is `Int`. -/
structure PatientRegistration where
  name : String
  age : Int
  gender : String
  phone : String
  medical_history : String
  current_medications : String
  allergies : String
deriving DecidableEq

/-- The `ConsultationRequest` body of the `/consult` endpoint (src/main.py lines
86-90; the endpoint was registered against this class, so the later shadowing
redefinition at the bottom of the file never reaches it).  `specialization` is
the closed enum. -/
structure ConsultationRequest where
  specialization : Specialization
  selected_symptoms : List String
  message : String
  patient_id : String
deriving DecidableEq

/-- The `ConsultationResponse` model returned by `/consult` (src/main.py lines
92-95).  Its only fields are `doctor_response`, `timestamp` and
`consultation_id`. -/
structure ConsultationResponse where
  doctor_response : String
  timestamp : String
  consultation_id : String
deriving DecidableEq

/-- The declared field names of `ConsultationResponse`, i.e. the keys of its
JSON serialization. -/
def ConsultationResponse.fieldNames : List String :=
  ["doctor_response", "timestamp", "consultation_id"]

/-- The JSON serialization of a `ConsultationResponse` as key/value pairs. -/
def ConsultationResponse.toPairs (r : ConsultationResponse) : List (String × String) :=
  [("doctor_response", r.doctor_response), ("timestamp", r.timestamp),
   ("consultation_id", r.consultation_id)]

/-- The `ChatMessage` model, one stored consultation turn (src/main.py lines
97-101). -/
structure ChatMessage where
  patient_message : String
  doctor_response : String
  timestamp : String
  symptoms : List String
deriving DecidableEq

/-- The declared field names of `ChatMessage`: a stored turn records exactly
these four attributes. -/
def ChatMessage.fieldNames : List String :=
  ["patient_message", "doctor_response", "timestamp", "symptoms"]

/-- One patient record as stored in `patients_db` (the `patient_data` dict
built in `register_patient`, src/main.py lines 335-345). -/
structure PatientData where
  id : String
  name : String
  age : Int
  gender : String
  phone : String
  medical_history : String
  current_medications : String
  allergies : String
  registration_time : String
deriving DecidableEq

/-- The two process-wide in-memory dictionaries (src/main.py lines 104-105). -/
structure State where
  patients_db : List (String × PatientData)
  consultations_db : List (String × List ChatMessage)
deriving DecidableEq

/-- An `HTTPException`: status code and detail string. -/
structure HTTPError where
  status : Nat
  detail : String
deriving DecidableEq

/-- Exceptions that can escape the body of the `/consult` handler into its
blanket `except Exception` clause: the handler's own `HTTPException`, or the
`KeyError` from `consultations_db[...]` on a missing key. -/
inductive PyExc where
  | http (status : Nat) (detail : String)
  | keyError (key : String)
deriving DecidableEq

/-- Python `str(e)` for the exceptions above: starlette renders an
`HTTPException` as `"{status_code}: {detail}"`, and a `KeyError` as the quoted
key. -/
def PyExc.str : PyExc → String
  | .http status detail => toString status ++ ": " ++ detail
  | .keyError key => "\x27" ++ key ++ "\x27"

/-- External-provider configuration: the two credentials (compared against the
placeholder defaults of src/main.py lines 25-27) and the two providers as
oracles, mirroring `generate_response` which returns a string or `None` (any
network failure is swallowed inside the client and surfaces as `None`). -/
structure Config where
  hfToken : String
  ibmKey : String
  hfGen : String → Option String
  ibmGen : String → Option String

/-- The `age` field validator (src/main.py lines 74-78): rejects `v <= 0 or
v > 150`. -/
def validate_age (v : Int) : Except String Int :=
  if v ≤ 0 ∨ v > 150 then .error "Age must be between 1 and 150" else .ok v

/-- The `name`/`phone` field validator (src/main.py lines 80-84): rejects
`not v or not v.strip()` and stores the stripped value. -/
def validate_required_fields (v : String) : Except String String :=
  if v = "" ∨ strTrim v = "" then .error "This field is required" else .ok (strTrim v)

/-- Pydantic validation of a registration body: the model is accepted exactly
when every field validator passes (validator order does not affect
acceptance). -/
def validatePatientRegistration (name : String) (age : Int)
    (gender phone medical_history current_medications allergies : String) :
    Except String PatientRegistration :=
  match validate_age age with
  | .error e => .error e
  | .ok age' =>
    match validate_required_fields name with
    | .error e => .error e
    | .ok name' =>
      match validate_required_fields phone with
      | .error e => .error e
      | .ok phone' =>
        .ok { name := name', age := age', gender := gender, phone := phone',
              medical_history := medical_history,
              current_medications := current_medications, allergies := allergies }

/-- Whether an `Except` value is a success. -/
def exceptOk {ε α : Type} : Except ε α → Bool
  | .ok _ => true
  | .error _ => false

/-- Python `hash` over strings, as used by `generate_patient_id`: modelled as a
fixed deterministic function of its input string.  Within one interpreter
process `hash` is deterministic, which is the only property the code relies
on. -/
def pyHash (s : String) : Nat :=
  s.data.foldl (fun h c => (h * 31 + c.toNat) % (2 ^ 64)) 5381

/-- `generate_patient_id` (src/main.py lines 163-165):
`f"pat_{hash(name + phone + str(datetime.now().timestamp()))}"`.  The clock
reading `str(datetime.now().timestamp())` is the explicit `now_ts`
parameter. -/
def generate_patient_id (name phone : String) (now_ts : String) : String :=
  "pat_" ++ toString (pyHash (name ++ phone ++ now_ts))

/-- The `patient_data` dictionary built by `register_patient` (src/main.py
lines 335-345). -/
def patient_data_of (patient_id : String) (p : PatientRegistration) (now_iso : String) :
    PatientData :=
  { id := patient_id, name := p.name, age := p.age, gender := p.gender, phone := p.phone,
    medical_history := p.medical_history, current_medications := p.current_medications,
    allergies := p.allergies, registration_time := now_iso }

/-- The success payload of `/register`. -/
structure RegisterResponse where
  message : String
  patient_id : String
  status : String
deriving DecidableEq

/-- The `/register` handler body (src/main.py lines 329-357), after pydantic
has accepted the body.  The handler's own `try/except` is unreachable from
here: the body only builds an id and writes the two dictionaries.  Note there
is no check that the generated id is fresh — both writes overwrite any
existing entry for that key. -/
def register_patient (s : State) (p : PatientRegistration) (now_ts now_iso : String) :
    RegisterResponse × State :=
  let patient_id := generate_patient_id p.name p.phone now_ts
  let patient_data := patient_data_of patient_id p now_iso
  ({ message := "Patient registered successfully! Welcome, " ++ p.name ++ "!",
     patient_id := patient_id, status := "success" },
   { patients_db := dictInsert s.patients_db patient_id patient_data,
     consultations_db := dictInsert s.consultations_db patient_id [] })

/-- `create_medical_prompt` (src/main.py lines 167-199).  The `.get` accesses
on `patient_info` always find their key, since `register_patient` stores every
field. -/
def create_medical_prompt (patient_info : PatientData) (specialization : String)
    (symptoms : List String) (message : String) : String :=
  let patient_details :=
    "\n    Patient Information:\n    - Name: " ++ patient_info.name ++
    "\n    - Age: " ++ toString patient_info.age ++
    "\n    - Gender: " ++ patient_info.gender ++
    "\n    - Medical History: " ++ patient_info.medical_history ++
    "\n    - Current Medications: " ++ patient_info.current_medications ++
    "\n    - Allergies: " ++ patient_info.allergies ++ "\n    "
  let symptoms_text := if symptoms.isEmpty then "None selected" else strIntercalate ", " symptoms
  "\n    You are an experienced " ++ specialization ++
  " providing medical consultation.\n    \n    " ++ patient_details ++
  "\n    \n    Selected Symptoms: " ++ symptoms_text ++
  "\n    \n    Guidelines:\n    1. Be professional, empathetic, and thorough" ++
  "\n    2. Ask relevant follow-up questions if needed" ++
  "\n    3. Provide medical advice based on symptoms and patient history" ++
  "\n    4. Suggest appropriate medications when necessary (include dosage and duration)" ++
  "\n    5. Recommend when to seek immediate medical attention" ++
  "\n    6. Always remind that this is a consultation and not a replacement for in-person examination" ++
  "\n    7. Be specific about medication names, dosages, and instructions" ++
  "\n    \n    Patient\x27s message: " ++ message ++ "\n    \n    Doctor\x27s response:"

/-- The Dermatologist template of `get_fallback_response` (src/main.py lines
206-228). -/
def fallback_dermatologist (symptoms_text message patient_name : String) (patient_age : Int) :
    String :=
  "\n        Thank you for your consultation, " ++ patient_name ++
  ". \n\n        Based on your concern about " ++ strLower message ++
  " and the symptoms you\x27ve selected (" ++ symptoms_text ++
  "), I can provide the following guidance:\n\n        **Assessment:**\n        - Your age (" ++
  toString patient_age ++
  ") and symptoms suggest this could be a common dermatological condition\n        - The combination of " ++
  symptoms_text ++
  " needs proper evaluation\n\n        **Recommendations:**\n        1. **Topical Treatment**: Consider applying a gentle moisturizer twice daily\n        2. **Avoid Irritants**: Stay away from harsh soaps and fragrances\n        3. **Medication**: You may try over-the-counter hydrocortisone cream (0.5%) for 5-7 days\n\n        **When to seek immediate care:**\n        - If symptoms worsen rapidly\n        - Signs of infection (pus, increased redness, warmth)\n        - If you develop fever\n\n        **Important:** This is a virtual consultation. Please visit a dermatologist in person for proper examination and diagnosis.\n\n        Do you have any other concerns or questions?\n        "

/-- The Cardiologist template of `get_fallback_response` (src/main.py lines
230-256). -/
def fallback_cardiologist (symptoms_text message patient_name : String) (patient_age : Int) :
    String :=
  "\n        Hello " ++ patient_name ++
  ", \n\n        Thank you for consulting me about " ++ strLower message ++
  ". Given your symptoms (" ++ symptoms_text ++
  "), let me provide you with some guidance:\n\n        **Assessment:**\n        - At " ++
  toString patient_age ++
  " years old, cardiovascular health is important to monitor\n        - Your symptoms need careful evaluation\n\n        **Immediate Recommendations:**\n        1. **Lifestyle**: Maintain regular exercise (as tolerated)\n        2. **Diet**: Reduce sodium intake, increase fruits and vegetables\n        3. **Monitoring**: Check blood pressure regularly\n\n        **Medication (if appropriate):**\n        - Consider low-dose aspirin (81mg daily) - consult your physician first\n        - If you have hypertension: ACE inhibitors may be recommended\n\n        **⚠️ Seek immediate medical attention if:**\n        - Severe chest pain\n        - Shortness of breath at rest\n        - Fainting or severe dizziness\n\n        **Important:** Cardiac conditions require in-person evaluation. Please schedule an appointment for proper testing (ECG, echocardiogram if needed).\n\n        Any other questions about your heart health?\n        "

/-- The Gynecologist template of `get_fallback_response` (src/main.py lines
258-285). -/
def fallback_gynecologist (symptoms_text message patient_name : String) (patient_age : Int) :
    String :=
  "\n        Dear " ++ patient_name ++
  ",\n\n        Thank you for your consultation regarding " ++ strLower message ++
  ". Considering your symptoms (" ++ symptoms_text ++
  "), here\x27s my assessment:\n\n        **Clinical Evaluation:**\n        - Your age (" ++
  toString patient_age ++
  ") and symptoms provide important context\n        - These concerns are common and often treatable\n\n        **Treatment Recommendations:**\n        1. **Lifestyle**: Maintain good hygiene, wear breathable cotton underwear\n        2. **Diet**: Stay hydrated, consider probiotics\n        3. **Monitoring**: Track your symptoms and menstrual cycle\n\n        **Possible Medications:**\n        - For infections: Antifungal cream (if yeast infection suspected)\n        - For irregular periods: May need hormonal evaluation\n        - Pain management: Ibuprofen 400mg as needed\n\n        **Follow-up needed if:**\n        - Symptoms persist beyond 7 days\n        - Severe pain or fever\n        - Unusual discharge or bleeding\n\n        **Important:** Gynecological health requires proper examination. Please schedule an in-person appointment for accurate diagnosis.\n\n        Do you have any other women\x27s health concerns?\n        "

/-- The default template of `get_fallback_response` (src/main.py lines
288-310). -/
def fallback_default (specialization symptoms_text message patient_name : String)
    (patient_age : Int) : String :=
  "\n    Hello " ++ patient_name ++
  ",\n\n    Thank you for consulting me about " ++ strLower message ++
  ". As a " ++ specialization ++
  ", I\x27ve reviewed your symptoms (" ++ symptoms_text ++
  ").\n\n    **My Assessment:**\n    - Your age (" ++ toString patient_age ++
  ") and symptoms require careful evaluation\n    - These concerns fall within my specialty area\n\n    **General Recommendations:**\n    1. **Rest and Recovery**: Allow your body time to heal\n    2. **Hydration**: Drink plenty of water\n    3. **Monitor Symptoms**: Keep track of any changes\n\n    **When to seek immediate care:**\n    - If symptoms worsen significantly\n    - Development of fever or severe pain\n    - Any concerning new symptoms\n\n    **Important:** This virtual consultation cannot replace a physical examination. Please schedule an in-person appointment for proper diagnosis and treatment.\n\n    What other concerns would you like to discuss?\n    "

/-- `get_fallback_response` (src/main.py lines 201-312):
`fallback_responses.get(specialization, default_response)` with
specialization-specific templates for Dermatologist, Cardiologist and
Gynecologist. -/
def get_fallback_response (specialization : String) (symptoms : List String)
    (message : String) (patient_name : String) (patient_age : Int) : String :=
  let symptoms_text :=
    if symptoms.isEmpty then "no specific symptoms selected" else strIntercalate ", " symptoms
  if specialization = "Dermatologist" then
    fallback_dermatologist symptoms_text message patient_name patient_age
  else if specialization = "Cardiologist" then
    fallback_cardiologist symptoms_text message patient_name patient_age
  else if specialization = "Gynecologist" then
    fallback_gynecologist symptoms_text message patient_name patient_age
  else
    fallback_default specialization symptoms_text message patient_name patient_age

/-- Python truthiness test `not doctor_response` on a value that is `None` or
a string. -/
def optBlank : Option String → Bool
  | none => true
  | some t => t == ""

/-- The provider chain of the `/consult` handler (src/main.py lines 377-396):
try Hugging Face when its token is not the placeholder, then IBM Watson when
the response so far is falsy and its key is not the placeholder, then the
template fallback when the response is still falsy. -/
def chain_doctor_response (cfg : Config) (patient_info : PatientData)
    (req : ConsultationRequest) : String :=
  let prompt := create_medical_prompt patient_info req.specialization.val
      req.selected_symptoms req.message
  let d1 : Option String :=
    if cfg.hfToken = "your_huggingface_token_here" then none else cfg.hfGen prompt
  let d2 : Option String :=
    if optBlank d1 = true ∧ cfg.ibmKey ≠ "your_ibm_api_key_here" then cfg.ibmGen prompt else d1
  match d2 with
  | none =>
    get_fallback_response req.specialization.val req.selected_symptoms req.message
      patient_info.name patient_info.age
  | some t =>
    if t = "" then
      get_fallback_response req.specialization.val req.selected_symptoms req.message
        patient_info.name patient_info.age
    else t

/-- The body of the `/consult` handler inside its `try` block (src/main.py
lines 362-412): 404 when the patient is unknown, otherwise produce the doctor
text, append the `ChatMessage` to the patient's log and return the
`ConsultationResponse` whose `consultation_id` counts the log after the
append.  A registered-but-logless patient would raise `KeyError` at the
append. -/
def medical_consultation_body (cfg : Config) (s : State) (req : ConsultationRequest)
    (now : String) : Except PyExc (ConsultationResponse × State) :=
  match dictLookup s.patients_db req.patient_id with
  | none => .error (.http 404 "Patient not found. Please register first.")
  | some patient_info =>
    let doctor_response := chain_doctor_response cfg patient_info req
    let consultation : ChatMessage :=
      { patient_message := req.message, doctor_response := doctor_response,
        timestamp := now, symptoms := req.selected_symptoms }
    match dictLookup s.consultations_db req.patient_id with
    | none => .error (.keyError req.patient_id)
    | some log =>
      let newLog := log ++ [consultation]
      (.ok ({ doctor_response := doctor_response, timestamp := consultation.timestamp,
              consultation_id := "cons_" ++ toString newLog.length },
            { s with consultations_db := dictInsert s.consultations_db req.patient_id newLog }))

/-- The `/consult` handler (src/main.py lines 359-415).  Its `except Exception`
clause catches every exception from the body — including the handler's own
`HTTPException(404)`, since `HTTPException` subclasses `Exception` — and
re-raises `HTTPException(status_code=500, detail=str(e))`. -/
def medical_consultation (cfg : Config) (s : State) (req : ConsultationRequest)
    (now : String) : Except HTTPError ConsultationResponse × State :=
  match medical_consultation_body cfg s req now with
  | .ok (r, s') => (.ok r, s')
  | .error e => (.error ⟨500, e.str⟩, s)

/-- The success payload of `/patient/{patient_id}/history`. -/
structure HistoryResponse where
  patient_info : PatientData
  consultations : List ChatMessage
deriving DecidableEq

/-- The `/patient/{patient_id}/history` handler (src/main.py lines 417-426):
404 when the patient is unknown, otherwise the record plus
`consultations_db.get(patient_id, [])`.  The handler performs no writes; the
returned state is the input state. -/
def get_consultation_history (s : State) (patient_id : String) :
    Except HTTPError HistoryResponse × State :=
  match dictLookup s.patients_db patient_id with
  | none => (.error ⟨404, "Patient not found"⟩, s)
  | some patient_info =>
    (.ok { patient_info := patient_info,
           consultations := (dictLookup s.consultations_db patient_id).getD [] }, s)

/-- The patient-information header of the export report (src/main.py lines
441-462). -/
def report_patient_header (patient_info : PatientData) : String :=
  "\n╔" ++ repChar '═' 67 ++ "\n║                    MEDICAL CONSULTATION REPORT\n╚" ++
  repChar '═' 67 ++ "\n\n📋 PATIENT INFORMATION:\n" ++ repChar '━' 72 ++
  "\nName:                   " ++
  patient_info.name ++ "\nAge:                    " ++ toString patient_info.age ++
  " years\nGender:                 " ++ patient_info.gender ++
  "\nPhone:                  " ++ patient_info.phone ++
  "\nRegistration Date:      " ++ patient_info.registration_time ++
  "\n\nMedical History:        " ++ patient_info.medical_history ++
  "\nCurrent Medications:    " ++ patient_info.current_medications ++
  "\nKnown Allergies:        " ++ patient_info.allergies ++
  "\n\n╔" ++ repChar '═' 67 ++ "\n║                    CONSULTATION HISTORY\n╚" ++
  repChar '═' 67 ++ "\n\n"

/-- One consultation block of the export report, with its 1-based sequence
number (src/main.py lines 465-484). -/
def consultation_block (i : Nat) (c : ChatMessage) : String :=
  let symptoms_text := if c.symptoms.isEmpty then "None" else strIntercalate ", " c.symptoms
  "\n┌" ++ repChar '─' 69 ++ "\n│ CONSULTATION #" ++
  toString i ++ " - " ++ c.timestamp ++
  "\n└" ++ repChar '─' 69 ++ "\n\n👤 PATIENT SYMPTOMS SELECTED:\n" ++
  symptoms_text ++ "\n\n👤 PATIENT MESSAGE:\n" ++ c.patient_message ++
  "\n\n👨‍⚕️ DOCTOR RESPONSE:\n" ++ c.doctor_response ++
  "\n\n" ++ repChar '━' 72 ++ "\n\n"

/-- The `report +=` loop over `enumerate(consultations, 1)`. -/
def report_blocks (consultations : List ChatMessage) : String :=
  strJoin ((List.enumFrom 1 consultations).map (fun p => consultation_block p.1 p.2))

/-- The footer of the export report up to the embedded generation time
(src/main.py lines 487-493): the summary box, the consultation count, and the
`Report Generated:` label whose value is `datetime.now().strftime(...)`. -/
def report_footer_head (total : Nat) : String :=
  "\n╔" ++ repChar '═' 67 ++ "\n║                    REPORT SUMMARY\n╚" ++
  repChar '═' 67 ++ "\n\nTotal Consultations:    " ++
  toString total ++ "\nReport Generated:       "

/-- The fixed disclaimer tail of the export report (src/main.py lines
495-503). -/
def report_footer_tail : String :=
  "\n\n⚠️  MEDICAL DISCLAIMER:\nThis virtual consultation is for informational purposes only and does not \nreplace professional medical advice, diagnosis, or treatment. Always seek \nthe advice of qualified healthcare providers for any medical concerns.\n\n" ++
  repChar '═' 71 ++ "\n                    END OF MEDICAL CONSULTATION REPORT\n" ++
  repChar '═' 71 ++ "\n"

/-- The full report string built by `export_consultation_report` for a
non-empty log (src/main.py lines 441-503).  `now_str` is the clock reading
`datetime.now().strftime("%Y-%m-%d %H:%M:%S")` taken while rendering the
footer; string concatenation is associative, so the `report +=` accumulation
is rendered compositionally. -/
def format_report (patient_info : PatientData) (consultations : List ChatMessage)
    (now_str : String) : String :=
  (report_patient_header patient_info ++ report_blocks consultations) ++
    ((report_footer_head consultations.length ++ now_str) ++ report_footer_tail)

/-- The `/patient/{patient_id}/export` handler (src/main.py lines 428-505):
404 when the patient is unknown, the sentinel string when the log is empty,
otherwise the formatted report.  No writes; the returned state is the input
state. -/
def export_consultation_report (s : State) (patient_id : String) (now_str : String) :
    Except HTTPError String × State :=
  match dictLookup s.patients_db patient_id with
  | none => (.error ⟨404, "Patient not found"⟩, s)
  | some patient_info =>
    let consultations := (dictLookup s.consultations_db patient_id).getD []
    if consultations.isEmpty then (.ok "No consultation data to export", s)
    else (.ok (format_report patient_info consultations now_str), s)

/-- The `/patient/{patient_id}/clear-history` handler (src/main.py lines
507-514): 404 when the patient is unknown, otherwise replace the log with the
empty list.  This handler has no `try/except`, so its 404 reaches the
client. -/
def clear_consultation_history (s : State) (patient_id : String) :
    Except HTTPError String × State :=
  match dictLookup s.patients_db patient_id with
  | none => (.error ⟨404, "Patient not found"⟩, s)
  | some _ =>
    (.ok "Consultation history cleared successfully",
     { s with consultations_db := dictInsert s.consultations_db patient_id [] })

/-- The `/symptoms/{specialization}` endpoint (src/main.py lines 324-327).
The handler itself is the bare catalog lookup `SYMPTOMS[specialization]`; the
path parameter is annotated with the `Specialization` enum, so the framework
coerces the raw string first and rejects a non-member with a 422 validation
response before the handler runs. -/
def get_symptoms (s : String) : Except HTTPError (List String) :=
  match Specialization.ofString s with
  | none =>
    .error ⟨422,
      "Input should be \x27Dermatologist\x27, \x27Gynecologist\x27, \x27Cardiologist\x27, \x27Neurologist\x27 or \x27Orthopedist\x27"⟩
  | some sp => .ok (SYMPTOMS sp)

/-- The status code of an endpoint result: `some status` on error, `none` on
success. -/
def httpStatusOf {α : Type} : Except HTTPError α → Option Nat
  | .error e => some e.status
  | .ok _ => none

/-- A sequence of `/consult` calls, each with its request body and clock
reading, threaded through the shared state. -/
def runTurns (cfg : Config) (s : State) (reqs : List (ConsultationRequest × String)) : State :=
  reqs.foldl (fun st rt => (medical_consultation cfg st rt.1 rt.2).2) s

/-- The `ChatMessage` that a successful `/consult` call stores for request
`req` at clock reading `now`, given the patient record it read. -/
def turn_of (cfg : Config) (pd : PatientData) (req : ConsultationRequest) (now : String) :
    ChatMessage :=
  { patient_message := req.message, doctor_response := chain_doctor_response cfg pd req,
    timestamp := now, symptoms := req.selected_symptoms }

/-- The turns stored by a sequence of successful `/consult` calls, in call
order. -/
def turns_of (cfg : Config) (pd : PatientData) (reqs : List (ConsultationRequest × String)) :
    List ChatMessage :=
  reqs.map (fun rt => turn_of cfg pd rt.1 rt.2)

/-- A configuration with both provider credentials left at their placeholder
defaults (no provider configured); the oracles are never consulted. -/
def cfg₀ : Config :=
  { hfToken := "your_huggingface_token_here", ibmKey := "your_ibm_api_key_here",
    hfGen := fun _ => none, ibmGen := fun _ => none }

/-- A concrete valid registration body. -/
def reg₀ : PatientRegistration :=
  { name := "Jane Doe", age := 30, gender := "Female", phone := "555-0100",
    medical_history := "", current_medications := "", allergies := "" }

/-- A concrete clock reading, as `str(datetime.now().timestamp())`. -/
def ts₀ : String := "1700000000.0"

/-- The same clock reading as `datetime.now().isoformat()`. -/
def iso₀ : String := "2023-11-14T22:13:20"

/-- The patient id generated for `reg₀` at clock reading `ts₀`. -/
def pid₀ : String := generate_patient_id "Jane Doe" "555-0100" ts₀

/-- The empty store at process start. -/
def s₀ : State := { patients_db := [], consultations_db := [] }

/-- The store after registering `reg₀` at clock reading `ts₀`. -/
def s₁ : State := (register_patient s₀ reg₀ ts₀ iso₀).2

/-- The record stored for `reg₀`. -/
def pd₁ : PatientData := patient_data_of pid₀ reg₀ iso₀

/-- A concrete consultation request for the registered patient. -/
def req₀ : ConsultationRequest :=
  { specialization := .CARDIOLOGIST, selected_symptoms := ["Chest pain"],
    message := "I have chest pain", patient_id := pid₀ }

/-- The store after registering `reg₀` and then submitting one consultation
turn `req₀` at clock reading "T". -/
def s₂ : State := (medical_consultation cfg₀ s₁ req₀ "T").2

/-- A second registration body with the same name and phone as `reg₀` but a
different age. -/
def reg₁ : PatientRegistration :=
  { name := "Jane Doe", age := 31, gender := "Female", phone := "555-0100",
    medical_history := "hypertension", current_medications := "", allergies := "" }

theorem dictLookup_insert_self {α : Type} (d : List (String × α)) (k : String) (v : α) :
    dictLookup (dictInsert d k v) k = some v := by
  induction d with
  | nil => simp [dictInsert, dictLookup]
  | cons hd tl ih =>
    obtain ⟨k', v'⟩ := hd
    by_cases h : k' = k
    · subst h; simp [dictInsert, dictLookup]
    · simp [dictInsert, dictLookup, h, ih]

theorem dictLookup_insert_other {α : Type} (d : List (String × α)) (k k' : String) (v : α)
    (h : k' ≠ k) : dictLookup (dictInsert d k v) k' = dictLookup d k' := by
  induction d with
  | nil => simp [dictInsert, dictLookup, Ne.symm h]
  | cons hd tl ih =>
    obtain ⟨k0, v0⟩ := hd
    by_cases h0 : k0 = k
    · subst h0
      simp [dictInsert, dictLookup, Ne.symm h]
    · simp [dictInsert, dictLookup, h0, ih]

theorem str_ne_empty_of_length_pos (s : String) (h : 0 < s.length) : s ≠ "" := by
  intro hc
  rw [hc] at h
  simp [String.length] at h

theorem get_fallback_response_ne_empty (specialization : String) (symptoms : List String)
    (message patient_name : String) (patient_age : Int) :
    get_fallback_response specialization symptoms message patient_name patient_age ≠ "" := by
  unfold get_fallback_response fallback_dermatologist fallback_cardiologist
    fallback_gynecologist fallback_default
  have h1 : 0 < String.length "\n        Thank you for your consultation, " := by decide
  have h2 : 0 < String.length "\n        Hello " := by decide
  have h3 : 0 < String.length "\n        Dear " := by decide
  have h4 : 0 < String.length "\n    Hello " := by decide
  split_ifs <;>
    (apply str_ne_empty_of_length_pos; simp only [String.length_append]; omega)

theorem chain_doctor_response_unconfigured (cfg : Config) (patient_info : PatientData)
    (req : ConsultationRequest)
    (hhf : cfg.hfToken = "your_huggingface_token_here")
    (hibm : cfg.ibmKey = "your_ibm_api_key_here") :
    chain_doctor_response cfg patient_info req =
      get_fallback_response req.specialization.val req.selected_symptoms req.message
        patient_info.name patient_info.age := by
  unfold chain_doctor_response
  simp [hhf, hibm, optBlank]

theorem medical_consultation_ok (cfg : Config) (s : State) (req : ConsultationRequest)
    (now : String) (pd : PatientData) (log : List ChatMessage)
    (hp : dictLookup s.patients_db req.patient_id = some pd)
    (hc : dictLookup s.consultations_db req.patient_id = some log) :
    medical_consultation cfg s req now =
      (Except.ok ⟨chain_doctor_response cfg pd req, now, "cons_" ++ toString (log.length + 1)⟩,
       ⟨s.patients_db, dictInsert s.consultations_db req.patient_id
           (log ++ [turn_of cfg pd req now])⟩) := by
  unfold medical_consultation medical_consultation_body turn_of
  rw [hp, hc]
  simp

theorem runTurns_spec (cfg : Config) (pid : String) (pd : PatientData) :
    ∀ (reqs : List (ConsultationRequest × String)) (s : State) (log : List ChatMessage),
      dictLookup s.patients_db pid = some pd →
      dictLookup s.consultations_db pid = some log →
      (∀ rt ∈ reqs, rt.1.patient_id = pid) →
      dictLookup (runTurns cfg s reqs).patients_db pid = some pd ∧
        dictLookup (runTurns cfg s reqs).consultations_db pid =
          some (log ++ turns_of cfg pd reqs) := by
  intro reqs
  induction reqs with
  | nil => intro s log hp hc _; simp [runTurns, turns_of, hp, hc]
  | cons rt rest ih =>
    intro s log hp hc hall
    obtain ⟨req, now⟩ := rt
    have hpid : req.patient_id = pid := hall (req, now) (by simp)
    subst hpid
    have hstep := medical_consultation_ok cfg s req now pd log hp hc
    have hrun : runTurns cfg s ((req, now) :: rest) =
        runTurns cfg ((medical_consultation cfg s req now).2) rest := by
      simp [runTurns]
    rw [hrun, hstep]
    have hres := ih ⟨s.patients_db,
        dictInsert s.consultations_db req.patient_id (log ++ [turn_of cfg pd req now])⟩
      (log ++ [turn_of cfg pd req now]) hp (dictLookup_insert_self _ _ _)
      (fun r hr => hall r (by simp [hr]))
    refine ⟨hres.1, ?_⟩
    rw [hres.2]
    simp [turns_of]

theorem format_report_time_inj (patient_info : PatientData)
    (consultations : List ChatMessage) (t1 t2 : String)
    (h : format_report patient_info consultations t1 =
         format_report patient_info consultations t2) : t1 = t2 := by
  unfold format_report at h
  have hd := congrArg String.data h
  simp only [String.data_append] at hd
  exact String.ext (List.append_cancel_left (List.append_cancel_right (List.append_cancel_left hd)))

theorem dictInsert_idem {α : Type} (d : List (String × α)) (k : String) (v v' : α) :
    dictInsert (dictInsert d k v) k v' = dictInsert d k v' := by
  induction d with
  | nil => simp [dictInsert]
  | cons hd tl ih =>
    obtain ⟨k0, v0⟩ := hd
    by_cases h0 : k0 = k
    · subst h0; simp [dictInsert]
    · simp [dictInsert, h0, ih]

theorem toPairs_lookup_provider_used (r : ConsultationResponse) :
    dictLookup (ConsultationResponse.toPairs r) "provider_used" = none := by
  have h1 : ("doctor_response" : String) ≠ "provider_used" := by decide
  have h2 : ("timestamp" : String) ≠ "provider_used" := by decide
  have h3 : ("consultation_id" : String) ≠ "provider_used" := by decide
  simp [ConsultationResponse.toPairs, dictLookup, h1, h2, h3]

theorem export_report_ok (s : State) (pid : String) (pd : PatientData)
    (cs : List ChatMessage) (t : String)
    (hp : dictLookup s.patients_db pid = some pd)
    (hc : dictLookup s.consultations_db pid = some cs)
    (hne : cs.isEmpty = false) :
    export_consultation_report s pid t = (.ok (format_report pd cs t), s) := by
  unfold export_consultation_report
  rw [hp]
  dsimp only
  rw [hc]
  simp [hne]

/-- C1: for every patient_id absent from the patient store, `/consult` fails —
but with HTTP 500, not 404: the handler raises `HTTPException(404)` inside its
own `try`, and the blanket `except Exception` catches it and re-raises
`HTTPException(500, str(e))`.  The claimed NotFound never reaches the
caller. -/
theorem C1_unregistered_consult_returns_500 (cfg : Config) (s : State)
    (req : ConsultationRequest) (now : String)
    (h : dictLookup s.patients_db req.patient_id = none) :
    medical_consultation cfg s req now =
      (.error ⟨500, "404: Patient not found. Please register first."⟩, s) := by
  unfold medical_consultation medical_consultation_body
  rw [h]
  simp only [PyExc.str]
  have hstr : toString (404 : Nat) ++ ": " ++ "Patient not found. Please register first." =
      "404: Patient not found. Please register first." := by decide
  rw [hstr]

/-- Witness for C1: consulting for the unregistered id "ghost" on the empty
store yields the 500 response. -/
theorem C1_unregistered_consult_returns_500_witness :
    medical_consultation cfg₀ s₀
        ⟨.CARDIOLOGIST, [], "hi", "ghost"⟩ "T" =
      (.error ⟨500, "404: Patient not found. Please register first."⟩, s₀) :=
  C1_unregistered_consult_returns_500 cfg₀ s₀ ⟨.CARDIOLOGIST, [], "hi", "ghost"⟩ "T" (by decide)

/-- C9 counterexample: `list_symptoms("Podiatrist")` is rejected with a 422
validation response from the enum path-parameter coercion, not with the
claimed NotFound (404). -/
theorem C9_counterexample_unknown_specialization_not_404 :
    httpStatusOf (get_symptoms "Podiatrist") ≠ some 404 ∧
    httpStatusOf (get_symptoms "Podiatrist") = some 422 := by decide

/-- C9 (amended): for every specialization in the catalog, `list_symptoms`
returns its non-empty, duplicate-free ordered list; for every string that is
not a catalog key, the request is rejected as a 422 validation error (enum
coercion), not as NotFound. -/
theorem C9_amended_symptoms_catalog :
    (∀ sp : Specialization,
      get_symptoms sp.val = .ok (SYMPTOMS sp) ∧ SYMPTOMS sp ≠ [] ∧ (SYMPTOMS sp).Nodup) ∧
    ∀ s : String, Specialization.ofString s = none →
      httpStatusOf (get_symptoms s) = some 422 := by
  constructor
  · intro sp
    cases sp <;> exact ⟨rfl, by decide, by decide⟩
  · intro s h
    unfold get_symptoms
    rw [h]
    rfl

/-- Witness for C9: the unknown specialization "Podiatrist" gets status 422. -/
theorem C9_amended_symptoms_catalog_witness :
    httpStatusOf (get_symptoms "Podiatrist") = some 422 :=
  C9_amended_symptoms_catalog.2 "Podiatrist" (by decide)

/-- C10: the history and export handlers perform no writes — for every
patient_id and clock reading, the state they return is exactly the input
state. -/
theorem C10_history_export_readonly (s : State) (pid now_str : String) :
    (get_consultation_history s pid).2 = s ∧
    (export_consultation_report s pid now_str).2 = s := by
  constructor
  · unfold get_consultation_history
    cases hh : dictLookup s.patients_db pid <;> rfl
  · unfold export_consultation_report
    split
    · rfl
    · dsimp only
      split <;> rfl

/-- C5: pydantic registration validation accepts exactly the inputs whose age
lies in 1..150 and whose name and phone are non-empty after stripping; ages
0, -5 and 151 are rejected, 1 and 150 accepted, and whitespace-only name or
phone rejected, all as instances of this equivalence. -/
theorem C5_registration_validation_iff (name : String) (age : Int)
    (gender phone medical_history current_medications allergies : String) :
    exceptOk (validatePatientRegistration name age gender phone medical_history
        current_medications allergies) = true ↔
      (1 ≤ age ∧ age ≤ 150 ∧ strTrim name ≠ "" ∧ strTrim phone ≠ "") := by
  constructor
  · intro h
    unfold validatePatientRegistration validate_age validate_required_fields exceptOk at h
    by_cases h1 : age ≤ 0 ∨ age > 150
    · simp [h1] at h
    · by_cases h2 : name = "" ∨ strTrim name = ""
      · simp [h1, h2] at h
      · by_cases h3 : phone = "" ∨ strTrim phone = ""
        · simp [h1, h2, h3] at h
        · refine ⟨?_, ?_, fun hh => h2 (Or.inr hh), fun hh => h3 (Or.inr hh)⟩
          · by_contra hh
            exact h1 (Or.inl (by omega))
          · by_contra hh
            exact h1 (Or.inr (by omega))
  · rintro ⟨ha1, ha2, hn, hp⟩
    have hc1 : ¬(age ≤ 0 ∨ age > 150) := by
      rintro (h | h) <;> omega
    have hc2 : ¬(name = "" ∨ strTrim name = "") := by
      rintro (rfl | hh)
      · exact hn (by decide)
      · exact hn hh
    have hc3 : ¬(phone = "" ∨ strTrim phone = "") := by
      rintro (rfl | hh)
      · exact hp (by decide)
      · exact hp hh
    simp [validatePatientRegistration, validate_age, validate_required_fields, exceptOk,
      hc1, hc2, hc3]

/-- C8: clearing history for a registered patient succeeds and leaves an empty
log (a following history read returns zero turns), a second clear succeeds
and changes nothing, and clearing for an absent patient_id fails with
NotFound (404). -/
theorem C8_clear_history_spec (s : State) (pid : String) :
    (dictLookup s.patients_db pid = none →
      clear_consultation_history s pid = (.error ⟨404, "Patient not found"⟩, s)) ∧
    ∀ pd, dictLookup s.patients_db pid = some pd →
      (clear_consultation_history s pid).1 =
        .ok "Consultation history cleared successfully" ∧
      dictLookup (clear_consultation_history s pid).2.consultations_db pid = some [] ∧
      (get_consultation_history (clear_consultation_history s pid).2 pid).1 =
        .ok ⟨pd, []⟩ ∧
      clear_consultation_history (clear_consultation_history s pid).2 pid =
        ((.ok "Consultation history cleared successfully" : Except HTTPError String),
         (clear_consultation_history s pid).2) := by
  constructor
  · intro h
    unfold clear_consultation_history
    rw [h]
  · intro pd h
    unfold clear_consultation_history
    rw [h]
    refine ⟨rfl, dictLookup_insert_self _ _ _, ?_, ?_⟩
    · unfold get_consultation_history
      dsimp only
      rw [h, dictLookup_insert_self]
      rfl
    · dsimp only
      rw [h]
      rw [dictInsert_idem]

/-- Witness for C8: on the store holding the registered patient `pid₀`,
clearing succeeds; on an absent id it is a 404. -/
theorem C8_clear_history_spec_witness :
    (clear_consultation_history s₁ pid₀).1 =
      .ok "Consultation history cleared successfully" ∧
    clear_consultation_history s₁ "ghost" = (.error ⟨404, "Patient not found"⟩, s₁) :=
  ⟨((C8_clear_history_spec s₁ pid₀).2 pd₁ (by decide)).1,
   (C8_clear_history_spec s₁ "ghost").1 (by decide)⟩

/-- C4 (amended): the export rendering is a deterministic pure function of the
patient, the turns and the generation-time clock reading — two renderings
agree exactly when their clock readings agree, because the footer embeds the
generation time. -/
theorem C4_amended_report_deterministic_given_clock (patient_info : PatientData)
    (consultations : List ChatMessage) (t1 t2 : String) :
    format_report patient_info consultations t1 =
        format_report patient_info consultations t2 ↔ t1 = t2 :=
  ⟨format_report_time_inj patient_info consultations t1 t2, fun h => by rw [h]⟩

/-- C4 counterexample: exporting the same patient and same single-turn log at
two different clock readings produces different bytes, so the report is not a
function of patient and turns alone. -/
theorem C4_counterexample_report_depends_on_clock :
    export_consultation_report s₂ pid₀ "2023-11-14 22:14:00" ≠
      export_consultation_report s₂ pid₀ "2023-11-14 22:14:01" := by
  have hok := medical_consultation_ok cfg₀ s₁ req₀ "T" pd₁ [] (by decide) (by decide)
  have hs2 : s₂ = ⟨s₁.patients_db,
      dictInsert s₁.consultations_db req₀.patient_id ([] ++ [turn_of cfg₀ pd₁ req₀ "T"])⟩ := by
    unfold s₂
    rw [hok]
  have hp : dictLookup s₂.patients_db pid₀ = some pd₁ := by
    rw [hs2]
    decide
  have hc : dictLookup s₂.consultations_db pid₀ = some ([] ++ [turn_of cfg₀ pd₁ req₀ "T"]) := by
    rw [hs2]
    exact dictLookup_insert_self _ _ _
  intro h
  rw [export_report_ok s₂ pid₀ pd₁ ([] ++ [turn_of cfg₀ pd₁ req₀ "T"]) "2023-11-14 22:14:00" hp hc rfl,
    export_report_ok s₂ pid₀ pd₁ ([] ++ [turn_of cfg₀ pd₁ req₀ "T"]) "2023-11-14 22:14:01" hp hc rfl] at h
  simp only [Prod.mk.injEq, Except.ok.injEq] at h
  exact absurd (format_report_time_inj _ _ _ _ h.1) (by decide)

/-- C2 counterexample: with no provider configured, a concrete turn for the
registered patient succeeds, but the response it returns serializes with no
"provider_used" key at all — the claimed
`provider_used = "template-fallback"` does not exist in the response. -/
theorem C2_counterexample_no_provider_used_field :
    exceptOk (medical_consultation cfg₀ s₁ req₀ "T").1 = true ∧
    dictLookup (ConsultationResponse.toPairs
      ⟨chain_doctor_response cfg₀ pd₁ req₀, "T", "cons_1"⟩) "provider_used" = none := by
  constructor
  · rw [medical_consultation_ok cfg₀ s₁ req₀ "T" pd₁ [] (by decide) (by decide)]
    rfl
  · exact toPairs_lookup_provider_used _

/-- C2 (amended): with both provider credentials at their placeholder
defaults, every turn for a registered patient succeeds, its doctor_response
is exactly the template fallback text and is non-empty; the response carries
doctor_response, timestamp and consultation_id and no provider label. -/
theorem C2_amended_fallback_nonempty_response (cfg : Config) (s : State)
    (req : ConsultationRequest) (now : String) (pd : PatientData)
    (log : List ChatMessage)
    (hhf : cfg.hfToken = "your_huggingface_token_here")
    (hibm : cfg.ibmKey = "your_ibm_api_key_here")
    (hp : dictLookup s.patients_db req.patient_id = some pd)
    (hc : dictLookup s.consultations_db req.patient_id = some log) :
    (medical_consultation cfg s req now).1 =
      .ok ⟨get_fallback_response req.specialization.val req.selected_symptoms req.message
             pd.name pd.age, now, "cons_" ++ toString (log.length + 1)⟩ ∧
    get_fallback_response req.specialization.val req.selected_symptoms req.message
        pd.name pd.age ≠ "" ∧
    dictLookup (ConsultationResponse.toPairs
      ⟨get_fallback_response req.specialization.val req.selected_symptoms req.message
         pd.name pd.age, now, "cons_" ++ toString (log.length + 1)⟩) "provider_used" = none := by
  have hchain := chain_doctor_response_unconfigured cfg pd req hhf hibm
  refine ⟨?_, get_fallback_response_ne_empty _ _ _ _ _, toPairs_lookup_provider_used _⟩
  rw [medical_consultation_ok cfg s req now pd log hp hc]
  rw [← hchain]

/-- Witness for C2: the concrete unconfigured run for the registered patient
returns the Cardiologist fallback text. -/
theorem C2_amended_fallback_nonempty_response_witness :
    (medical_consultation cfg₀ s₁ req₀ "T").1 =
      .ok ⟨get_fallback_response req₀.specialization.val req₀.selected_symptoms req₀.message
             pd₁.name pd₁.age, "T", "cons_" ++ toString (1 : Nat)⟩ ∧
    get_fallback_response req₀.specialization.val req₀.selected_symptoms req₀.message
        pd₁.name pd₁.age ≠ "" ∧
    dictLookup (ConsultationResponse.toPairs
      ⟨get_fallback_response req₀.specialization.val req₀.selected_symptoms req₀.message
         pd₁.name pd₁.age, "T", "cons_" ++ toString (1 : Nat)⟩) "provider_used" = none :=
  C2_amended_fallback_nonempty_response cfg₀ s₁ req₀ "T" pd₁ [] rfl rfl (by decide) (by decide)

/-- C3 counterexample: a concrete successful turn for the registered patient
is stored as a `ChatMessage` whose declared fields do not include a
specialization nor a provider label, and the `ConsultationResponse` model has
no provider_used field — the record-and-return shape the claim asserts does
not exist. -/
theorem C3_counterexample_turn_fields :
    exceptOk (medical_consultation cfg₀ s₂ req₀ "T2").1 = true ∧
    "specialization" ∉ ChatMessage.fieldNames ∧
    "provider_used" ∉ ChatMessage.fieldNames ∧
    "provider_used" ∉ ConsultationResponse.fieldNames := by
  refine ⟨?_, by decide, by decide, by decide⟩
  have hok := medical_consultation_ok cfg₀ s₁ req₀ "T" pd₁ [] (by decide) (by decide)
  have hs2 : s₂ = ⟨s₁.patients_db,
      dictInsert s₁.consultations_db req₀.patient_id ([] ++ [turn_of cfg₀ pd₁ req₀ "T"])⟩ := by
    unfold s₂
    rw [hok]
  have hp : dictLookup s₂.patients_db req₀.patient_id = some pd₁ := by
    rw [hs2]
    decide
  have hc : dictLookup s₂.consultations_db req₀.patient_id =
      some ([] ++ [turn_of cfg₀ pd₁ req₀ "T"]) := by
    rw [hs2]
    exact dictLookup_insert_self _ _ _
  rw [medical_consultation_ok cfg₀ s₂ req₀ "T2" pd₁ ([] ++ [turn_of cfg₀ pd₁ req₀ "T"]) hp hc]
  rfl

/-- C3 (amended): a successful turn appends to the patient's log a
`ChatMessage` recording the patient's message, the produced doctor text, the
clock reading and the selected symptoms — but no specialization and no
provider label — and returns a response carrying doctor_response, timestamp
and consultation_id, with no provider_used field. -/
theorem C3_amended_turn_and_response_shape (cfg : Config) (s : State)
    (req : ConsultationRequest) (now : String) (pd : PatientData)
    (log : List ChatMessage)
    (hp : dictLookup s.patients_db req.patient_id = some pd)
    (hc : dictLookup s.consultations_db req.patient_id = some log) :
    dictLookup (medical_consultation cfg s req now).2.consultations_db req.patient_id =
      some (log ++ [⟨req.message, chain_doctor_response cfg pd req, now,
                     req.selected_symptoms⟩]) ∧
    (medical_consultation cfg s req now).1 =
      .ok ⟨chain_doctor_response cfg pd req, now, "cons_" ++ toString (log.length + 1)⟩ ∧
    "specialization" ∉ ChatMessage.fieldNames ∧
    "provider_used" ∉ ChatMessage.fieldNames ∧
    "provider_used" ∉ ConsultationResponse.fieldNames := by
  have hok := medical_consultation_ok cfg s req now pd log hp hc
  refine ⟨?_, ?_, by decide, by decide, by decide⟩
  · rw [hok]
    exact dictLookup_insert_self _ _ _
  · rw [hok]

/-- Witness for C3: the amended shape at the concrete registered patient and
request. -/
theorem C3_amended_turn_and_response_shape_witness :
    dictLookup (medical_consultation cfg₀ s₁ req₀ "T").2.consultations_db req₀.patient_id =
      some ([] ++ [⟨req₀.message, chain_doctor_response cfg₀ pd₁ req₀, "T",
                    req₀.selected_symptoms⟩]) ∧
    (medical_consultation cfg₀ s₁ req₀ "T").1 =
      .ok ⟨chain_doctor_response cfg₀ pd₁ req₀, "T", "cons_" ++ toString (1 : Nat)⟩ ∧
    "specialization" ∉ ChatMessage.fieldNames ∧
    "provider_used" ∉ ChatMessage.fieldNames ∧
    "provider_used" ∉ ConsultationResponse.fieldNames :=
  C3_amended_turn_and_response_shape cfg₀ s₁ req₀ "T" pd₁ [] (by decide) (by decide)

/-- C6: starting from a registered patient with an empty log, running any
sequence of turn requests addressed to that patient leaves a history holding
exactly one stored turn per request, in submission order (the i-th stored
turn carries the i-th request's message and symptoms). -/
theorem C6_history_after_turns (cfg : Config) (s : State) (pid : String)
    (pd : PatientData) (reqs : List (ConsultationRequest × String))
    (hp : dictLookup s.patients_db pid = some pd)
    (hc : dictLookup s.consultations_db pid = some [])
    (hall : ∀ rt ∈ reqs, rt.1.patient_id = pid) :
    (get_consultation_history (runTurns cfg s reqs) pid).1 =
      .ok ⟨pd, turns_of cfg pd reqs⟩ ∧
    (turns_of cfg pd reqs).length = reqs.length := by
  obtain ⟨h1, h2⟩ := runTurns_spec cfg pid pd reqs s [] hp hc hall
  constructor
  · unfold get_consultation_history
    rw [h1]
    dsimp only
    rw [h2]
    simp
  · simp [turns_of]

/-- Witness for C6: two turns for the concrete registered patient leave a
history of exactly two stored turns in submission order. -/
theorem C6_history_after_turns_witness :
    (get_consultation_history (runTurns cfg₀ s₁ [(req₀, "T1"), (req₀, "T2")]) pid₀).1 =
      .ok ⟨pd₁, turns_of cfg₀ pd₁ [(req₀, "T1"), (req₀, "T2")]⟩ ∧
    (turns_of cfg₀ pd₁ [(req₀, "T1"), (req₀, "T2")]).length = 2 :=
  C6_history_after_turns cfg₀ s₁ pid₀ pd₁ [(req₀, "T1"), (req₀, "T2")]
    (by decide) (by decide) (by decide)

/-- C7 counterexample: registering `reg₁` (same name and phone as the already
registered `reg₀`, at the same clock reading) generates `pid₀` again — an id
already present in the store — and the write replaces the first patient's
record. -/
theorem C7_counterexample_id_collision_replaces_record :
    (register_patient s₁ reg₁ ts₀ iso₀).1.patient_id = pid₀ ∧
    dictLookup s₁.patients_db pid₀ = some pd₁ ∧
    dictLookup (register_patient s₁ reg₁ ts₀ iso₀).2.patients_db pid₀ =
      some (patient_data_of pid₀ reg₁ iso₀) ∧
    patient_data_of pid₀ reg₁ iso₀ ≠ pd₁ := by decide

/-- C7 (amended): the generated patient id is a deterministic function of
name, phone and the registration clock reading, and registration performs no
freshness check; when the generated id happens to be absent from the store,
registration adds the record and an empty log, existing records survive, and
every other key is untouched. -/
theorem C7_amended_fresh_id_registration (s : State) (p : PatientRegistration)
    (now_ts now_iso : String)
    (h : dictLookup s.patients_db (generate_patient_id p.name p.phone now_ts) = none) :
    (register_patient s p now_ts now_iso).1.patient_id =
      generate_patient_id p.name p.phone now_ts ∧
    dictLookup (register_patient s p now_ts now_iso).2.patients_db
        (generate_patient_id p.name p.phone now_ts) =
      some (patient_data_of (generate_patient_id p.name p.phone now_ts) p now_iso) ∧
    dictLookup (register_patient s p now_ts now_iso).2.consultations_db
        (generate_patient_id p.name p.phone now_ts) = some [] ∧
    (∀ pid' pd', dictLookup s.patients_db pid' = some pd' →
      dictLookup (register_patient s p now_ts now_iso).2.patients_db pid' = some pd') ∧
    ∀ pid', pid' ≠ generate_patient_id p.name p.phone now_ts →
      dictLookup (register_patient s p now_ts now_iso).2.consultations_db pid' =
        dictLookup s.consultations_db pid' := by
  refine ⟨rfl, dictLookup_insert_self _ _ _, dictLookup_insert_self _ _ _, ?_, ?_⟩
  · intro pid' pd' hlook
    have hne : pid' ≠ generate_patient_id p.name p.phone now_ts := by
      intro he
      rw [he, h] at hlook
      exact Option.noConfusion hlook
    rw [show (register_patient s p now_ts now_iso).2.patients_db =
        dictInsert s.patients_db (generate_patient_id p.name p.phone now_ts)
          (patient_data_of (generate_patient_id p.name p.phone now_ts) p now_iso) from rfl]
    rw [dictLookup_insert_other _ _ _ _ hne]
    exact hlook
  · intro pid' hne
    exact dictLookup_insert_other _ _ _ _ hne

/-- Witness for C7: registering on the empty store (where the generated id is
fresh) yields that id and stores the record. -/
theorem C7_amended_fresh_id_registration_witness :
    (register_patient s₀ reg₀ ts₀ iso₀).1.patient_id =
      generate_patient_id reg₀.name reg₀.phone ts₀ ∧
    dictLookup (register_patient s₀ reg₀ ts₀ iso₀).2.patients_db
        (generate_patient_id reg₀.name reg₀.phone ts₀) =
      some (patient_data_of (generate_patient_id reg₀.name reg₀.phone ts₀) reg₀ iso₀) :=
  ⟨(C7_amended_fresh_id_registration s₀ reg₀ ts₀ iso₀ (by decide)).1,
   (C7_amended_fresh_id_registration s₀ reg₀ ts₀ iso₀ (by decide)).2.1⟩

end MedConsult
